import Mathlib

/-!
Verification of `simhandler/regressiontools.py` and
`tests/annnohousestiming.py`: shallow embedding of the train/test
splitting, the normal-equation solver, the ANN constructor pipeline,
model (de)serialization, the hyperparameter grid search and the
problem-size timing sweep, together with theorems settling the frozen
claims about them.

Numeric arrays are modelled as lists (rows of rationals) or as
`Matrix` over `ℚ`; Python floats are modelled as exact rationals.
-/

set_option autoImplicit false

open Matrix

universe u v

/-- Models Python `int(train_percentage * len(profile))` from the
constructors of `ANNRegression` and `ParametricRegression`, for a
nonnegative `train_percentage` (the constructors default it to `0.7`):
`int` truncates toward zero, which on nonnegative values is the floor. -/
def pySplitIndex (train_percentage : ℚ) (n : ℕ) : ℕ :=
  (Int.floor (train_percentage * n)).toNat

namespace ANNRegression

/-- Models `self.train_data = load_profile[0:_split_index]` in
`ANNRegression.__init__`. -/
def train_data {α : Type u} (train_percentage : ℚ) (load_profile : List α) : List α :=
  List.take (pySplitIndex train_percentage load_profile.length) load_profile

/-- Models `self.train_labels = voltage_profile[0:_split_index]` in
`ANNRegression.__init__` (the split index is computed from `load_profile`). -/
def train_labels {α : Type u} (train_percentage : ℚ)
    (load_profile voltage_profile : List α) : List α :=
  List.take (pySplitIndex train_percentage load_profile.length) voltage_profile

/-- Models `self.test_data = load_profile[_split_index+1:]` in
`ANNRegression.__init__`. -/
def test_data {α : Type u} (train_percentage : ℚ) (load_profile : List α) : List α :=
  List.drop (pySplitIndex train_percentage load_profile.length + 1) load_profile

/-- Models `self.test_labels = voltage_profile[_split_index+1:]` in
`ANNRegression.__init__`. -/
def test_labels {α : Type u} (train_percentage : ℚ)
    (load_profile voltage_profile : List α) : List α :=
  List.drop (pySplitIndex train_percentage load_profile.length + 1) voltage_profile

end ANNRegression

namespace ParametricRegression

/-- Models `self.train['data'] = load_profile[0:_split_index]` in
`ParametricRegression.__init__`. -/
def train_data {α : Type u} (train_percentage : ℚ) (load_profile : List α) : List α :=
  List.take (pySplitIndex train_percentage load_profile.length) load_profile

/-- Models `self.train['target'] = voltage_profile[0:_split_index]` in
`ParametricRegression.__init__`. -/
def train_target {α : Type u} (train_percentage : ℚ)
    (load_profile voltage_profile : List α) : List α :=
  List.take (pySplitIndex train_percentage load_profile.length) voltage_profile

/-- Models `self.test['data'] = load_profile[_split_index+1:]` in
`ParametricRegression.__init__`. -/
def test_data {α : Type u} (train_percentage : ℚ) (load_profile : List α) : List α :=
  List.drop (pySplitIndex train_percentage load_profile.length + 1) load_profile

/-- Models `self.test['target'] = voltage_profile[_split_index+1:]` in
`ParametricRegression.__init__`. -/
def test_target {α : Type u} (train_percentage : ℚ)
    (load_profile voltage_profile : List α) : List α :=
  List.drop (pySplitIndex train_percentage load_profile.length + 1) voltage_profile

end ParametricRegression

/-- Models `tf.matrix_inverse` over exact rationals: the inverse of a
square matrix, computed as the adjugate scaled by the inverse of the
determinant (the zero matrix when the determinant is zero). -/
def matInv {n : ℕ} (A : Matrix (Fin n) (Fin n) ℚ) : Matrix (Fin n) (Fin n) ℚ :=
  (A.det)⁻¹ • A.adjugate

namespace ParametricRegression

/-- Models `self.train['data_pb'] = np.c_[np.ones((m, 1)), self.train['data']]`
from `ParametricRegression.__init__` at matrix granularity: the training
data augmented with a leading all-ones bias column. -/
def data_pb {m d : ℕ} (data : Matrix (Fin m) (Fin d) ℚ) : Matrix (Fin m) (Fin (d + 1)) ℚ :=
  Matrix.of fun i => Fin.cons 1 (data i)

/-- Models `ParametricRegression.calculateTheta`: with `x` the
`data_pb` matrix and `y` the training targets,
`theta = tf.matmul(tf.matmul(tf.matrix_inverse(tf.matmul(xt, x)), xt), y)`
where `xt = tf.transpose(x)` (tf.float32 arithmetic modelled as exact
rationals). -/
def calculateTheta {m k t : ℕ} (x : Matrix (Fin m) (Fin k) ℚ)
    (y : Matrix (Fin m) (Fin t) ℚ) : Matrix (Fin k) (Fin t) ℚ :=
  (matInv (xᵀ * x) * xᵀ) * y

end ParametricRegression

/-- Record of the keras network assembled by `ANNRegression.buildModel`:
the architecture parameters it passes to the external framework, with
`input_dim = self.train_data.shape[1]` and
`output_dim = self.train_labels.shape[1]`. -/
structure KerasModel where
  learning_rate : ℚ
  no_hidden_layers : ℕ
  layer_density : ℕ
  dropout : Bool
  input_dim : ℕ
  output_dim : ℕ
deriving DecidableEq

/-- Record of the fit performed by `ANNRegression.trainModel`
(`self.history`): the epoch count and the early-stop flag it passes to
`self.model.fit`. -/
structure TrainHistory where
  no_epochs : ℕ
  early_stop : Bool
deriving DecidableEq

/-- Observable actions of the regression classes, logged in the order
the Python methods are called: the data-splitting assignments, the
calls delegated to the ML framework, plotting, and file writes. -/
inductive Event where
  | splitData : Event
  | buildModel : Event
  | trainModel : Event
  | evaluateModel : Event
  | predictWithModel : Event
  | plotResults : Event
  | calculateTheta : Event
  | calculateBias : Event
  | saveModel (name : String) : Event
  | writeFile (path : String) : Event
deriving DecidableEq

/-- Attribute state of an `ANNRegression` object: each Python instance
attribute is `none` until the corresponding assignment runs. -/
structure ANNObj where
  train_data : Option (List (List ℚ))
  train_labels : Option (List (List ℚ))
  test_data : Option (List (List ℚ))
  test_labels : Option (List (List ℚ))
  model : Option KerasModel
  history : Option TrainHistory
  model_name : Option String
deriving DecidableEq

/-- An `ANNRegression` object on which no attribute assignment has run. -/
def ANNObj.empty : ANNObj :=
  ⟨none, none, none, none, none, none, none⟩

namespace ANNRegression

/-- Models `ANNRegression.__init__`: when both profiles are non-None it
splits the data, builds, trains, evaluates and predicts with the model,
and saves it iff `save_model`; otherwise the whole body is skipped.
Returns the attribute state and the event trace. `now` abstracts the
sanitized `str(datetime.datetime.now())` timestamp. -/
def init (load_profile voltage_profile : Option (List (List ℚ)))
    (train_percentage learning_rate : ℚ) (no_hidden_layers layer_density : ℕ)
    (dropout : Bool) (no_epochs : ℕ) (early_stop save_model plot_results : Bool)
    (now : String) : ANNObj × List Event :=
  match load_profile, voltage_profile with
  | some load, some voltage =>
    let td := train_data train_percentage load
    let tl := train_labels train_percentage load voltage
    let sd := test_data train_percentage load
    let sl := test_labels train_percentage load voltage
    let m : KerasModel :=
      ⟨learning_rate, no_hidden_layers, layer_density, dropout,
        (td.headI).length, (tl.headI).length⟩
    let name := "ann_model_" ++ now
    (⟨some td, some tl, some sd, some sl, some m, some ⟨no_epochs, early_stop⟩,
        if save_model then some name else none⟩,
      [Event.splitData, Event.buildModel, Event.trainModel, Event.evaluateModel,
          Event.predictWithModel]
        ++ (if plot_results then [Event.plotResults] else [])
        ++ (if save_model then
              [Event.saveModel name,
                Event.writeFile ("./data/lookup_tables/" ++ name ++ ".json"),
                Event.writeFile ("./data/lookup_tables/" ++ name ++ ".h5")]
            else []))
  | _, _ => (ANNObj.empty, [])

end ANNRegression

/-- Converts a row-list into a matrix of the given shape, reading entry
`(i, j)` from row `i` (missing entries default to `0`). -/
def toMat (A : List (List ℚ)) (m k : ℕ) : Matrix (Fin m) (Fin k) ℚ :=
  Matrix.of fun i j => (A.getD i.val []).getD j.val 0

/-- Converts a matrix back into its row-list. -/
def ofMat {m k : ℕ} (M : Matrix (Fin m) (Fin k) ℚ) : List (List ℚ) :=
  List.ofFn fun i => List.ofFn fun j => M i j

/-- Row-list form of `ParametricRegression.calculateTheta`, used to
store `self.theta` in the attribute state: the matrix computation of
`calculateTheta` applied to the row-lists `data_pb` and `target`. -/
def thetaOfLists (data_pb target : List (List ℚ)) : List (List ℚ) :=
  ofMat (ParametricRegression.calculateTheta
    (toMat data_pb data_pb.length (data_pb.headI).length)
    (toMat target data_pb.length (target.headI).length))

/-- Attribute state of a `ParametricRegression` object: each Python
instance attribute is `none` until the corresponding assignment runs. -/
structure ParamObj where
  train_data : Option (List (List ℚ))
  train_target : Option (List (List ℚ))
  train_data_pb : Option (List (List ℚ))
  test_data : Option (List (List ℚ))
  test_target : Option (List (List ℚ))
  theta : Option (List (List ℚ))
  bias : Option (List (List ℚ))
  model_name : Option String
deriving DecidableEq

/-- A `ParametricRegression` object on which no attribute assignment has
run. -/
def ParamObj.empty : ParamObj :=
  ⟨none, none, none, none, none, none, none, none⟩

namespace ParametricRegression

/-- Models `ParametricRegression.__init__`: when both profiles are
non-None it splits the data, builds the bias-augmented training matrix
(`np.c_` prepends a `1` to every training row), computes theta and the
bias, predicts and evaluates, and saves iff `save_model`; otherwise the
whole body is skipped. Returns the attribute state and the event trace. -/
def init (load_profile voltage_profile : Option (List (List ℚ)))
    (train_percentage : ℚ) (save_model : Bool) (now : String) :
    ParamObj × List Event :=
  match load_profile, voltage_profile with
  | some load, some voltage =>
    let td := train_data train_percentage load
    let tt := train_target train_percentage load voltage
    let pb := td.map (fun row => 1 :: row)
    let sd := test_data train_percentage load
    let st := test_target train_percentage load voltage
    let th := thetaOfLists pb tt
    let name := "ne_model_" ++ now
    (⟨some td, some tt, some pb, some sd, some st, some th,
        some (List.replicate tt.length (th.headI)),
        if save_model then some name else none⟩,
      [Event.splitData, Event.calculateTheta, Event.calculateBias,
          Event.predictWithModel, Event.evaluateModel]
        ++ (if save_model then
              [Event.saveModel name,
                Event.writeFile ("./data/lookup_tables/" ++ name ++ ".h5")]
            else []))
  | _, _ => (ParamObj.empty, [])

end ParametricRegression

namespace ANNRegression

/-- Models `ann_model_json.read().replace('\\', '')[1:-1]` from
`ANNRegression.loadModel`: drop every backslash, then the first and
last character. -/
def stripJson (s : List Char) : List Char :=
  ((s.filter (fun c => c ≠ '\\')).drop 1).dropLast

/-- Models the `try` body of `ANNRegression.loadModel` as a chain of
fallible external calls: `readFile` abstracts `open` plus `read` on the
json file, `model_from_json` abstracts `keras.models.model_from_json`,
and `load_weights` abstracts `model.load_weights` on the `.h5` file;
`μ` stands for the keras model object. -/
def loadJson {μ : Type} (readFile : String → Except String (List Char))
    (model_from_json : List Char → Except String μ)
    (load_weights : μ → String → Except String Unit)
    (model_name : String) : Except String μ := do
  let s ← readFile ("./data/lookup_tables/" ++ model_name ++ ".json")
  let m ← model_from_json (stripJson s)
  let _ ← load_weights m ("./data/lookup_tables/" ++ model_name ++ ".h5")
  pure m

/-- Models `ANNRegression.loadModel`: the `try` body wrapped in the bare
`except BaseException` that prints and `return False`. A normal return
of the loaded model is `.ok (.inl model)`; the catch-all branch returns
`.ok (.inr false)`; a propagated exception would be `.error`. -/
def loadModel {μ : Type} (readFile : String → Except String (List Char))
    (model_from_json : List Char → Except String μ)
    (load_weights : μ → String → Except String Unit)
    (model_name : String) : Except String (μ ⊕ Bool) :=
  match loadJson readFile model_from_json load_weights model_name with
  | Except.ok m => Except.ok (Sum.inl m)
  | Except.error _ => Except.ok (Sum.inr false)

end ANNRegression

/-- File-system model for the HDF5 lookup tables: a path is mapped to
the values of the `'data'` dataset stored there, or to the exception the
read raises (for instance a missing file). -/
def H5FS : Type :=
  String → Except String (List (List ℚ))

namespace ParametricRegression

/-- Path of the HDF5 lookup table `ParametricRegression` reads and
writes for a given model name. -/
def h5Path (model_name : String) : String :=
  "./data/lookup_tables/" ++ model_name ++ ".h5"

/-- Models `ParametricRegression.saveModel`: creates the `.h5` file at
the lookup-table path holding `np.array(self.theta)` as its `'data'`
dataset, leaving every other file unchanged. -/
def saveModel (fs : H5FS) (model_name : String) (theta : List (List ℚ)) : H5FS :=
  fun q => if q = h5Path model_name then Except.ok theta else fs q

/-- Models `ParametricRegression.loadModel`: reading the `'data'`
dataset of the `.h5` file wrapped in the bare `except BaseException`
that prints and `return False`. A normal return of the dataset is
`.ok (.inl values)`; the catch-all branch returns `.ok (.inr false)`;
a propagated exception would be `.error`. -/
def loadModel (fs : H5FS) (model_name : String) :
    Except String (List (List ℚ) ⊕ Bool) :=
  match fs (h5Path model_name) with
  | Except.ok d => Except.ok (Sum.inl d)
  | Except.error _ => Except.ok (Sum.inr false)

end ParametricRegression

/-- Models `np.arange(start, stop, step)` for a positive `step`: the
values `start + k * step` for `0 ≤ k < ⌈(stop - start) / step⌉`. -/
def arange (start stop step : ℚ) : List ℚ :=
  (List.range (Int.ceil ((stop - start) / step)).toNat).map fun k => start + k * step

/-- Modelled from the spec: `TrainANN`, the ANN trainer that
`HyperparamSearch.__init__` constructs once per grid point, is not
present under `src/` (the spec describes the search as training one ANN
per parameter combination and recording its evaluation results). A
trained network is represented by the two evaluation results
`evaluateModel()[0]` and `evaluateModel()[1]` that the search stores. -/
structure TrainANN where
  eval0 : ℚ
  eval1 : ℚ

/-- File-system model for the text results files: a path is mapped to
the list of lines (without their trailing newline) of the file stored
there, or `none` when no such file exists. -/
def TextFS : Type :=
  String → Option (List (List Char))


namespace HyperparamSearch

/-- Models `tg['learning_rate'] = np.arange(0.001, 0.1, 0.02)` from the
grid branch of `HyperparamSearch.__init__`. -/
def tg_learning_rate : List ℚ :=
  arange 0.001 0.1 0.02

/-- Models `tg['no_hidden_layers'] = np.arange(1, 2, 1)` from the grid
branch of `HyperparamSearch.__init__`. -/
def tg_no_hidden_layers : List ℚ :=
  arange 1 2 1

/-- Models `tg['layer_density'] = np.arange(50, 60, 10)` from the grid
branch of `HyperparamSearch.__init__`. -/
def tg_layer_density : List ℚ :=
  arange 50 60 10

/-- Path of the results file, `'./data/hyperparamsearchresults_' +
runtime + 'seconds.txt'`. -/
def resultsPath (runtime : String) : String :=
  "./data/hyperparamsearchresults_" ++ runtime ++ "seconds.txt"

/-- Models the inner loop of `HyperparamSearch.exportResults` writing
one row: each entry is written with `str` (abstracted by `render`), and
`', '` is written after it while `counter < len(training_session) - 1`. -/
def writeRowAux (render : ℚ → List Char) (row : List ℚ) (counter total : ℕ) :
    List Char :=
  match row with
  | [] => []
  | x :: xs =>
    render x ++ (if counter < total - 1 then [',', ' '] else [])
      ++ writeRowAux render xs (counter + 1) total

/-- The line `HyperparamSearch.exportResults` writes for one row of
`solution_matrix` (the counter starts at `0` for each row). -/
def rowLine (render : ℚ → List Char) (row : List ℚ) : List Char :=
  writeRowAux render row 0 row.length

/-- Models `HyperparamSearch.exportResults`: writes one line per row of
`solution_matrix` to the results file named after `str(self.runtime)`,
leaving every other file unchanged. -/
def exportResults (render : ℚ → List Char) (solution_matrix : List (List ℚ))
    (runtime : ℤ) (fs : TextFS) : TextFS :=
  fun q =>
    if q = resultsPath (toString runtime) then
      some (solution_matrix.map (rowLine render))
    else fs q

/-- Models Python `line.split(', ')` on a list of characters: cut at
every occurrence of the two-character separator, scanning left to
right; `acc` holds the characters of the current piece in reverse. -/
def splitAux : List Char → List Char → List (List Char)
  | [], acc => [acc.reverse]
  | [c], acc => [(c :: acc).reverse]
  | c1 :: c2 :: rest, acc =>
    if c1 = ',' ∧ c2 = ' ' then acc.reverse :: splitAux rest []
    else splitAux (c2 :: rest) (c1 :: acc)

/-- Models `line.split(', ')`. -/
def pySplitCS (line : List Char) : List (List Char) :=
  splitAux line []

/-- Closed form of the line written for a row: the pieces interleaved
with the separator `', '` (one separator after every piece but the
last, as the `counter` logic of `exportResults` produces). -/
def joinSep : List (List Char) → List Char
  | [] => []
  | [p] => p
  | p :: q :: ps => p ++ [',', ' '] ++ joinSep (q :: ps)

/-- Models `HyperparamSearch.importResults`: reads the results file for
the given runtime string, and for each line applies
`replace('\n', '')`, splits on `', '` and parses every piece with
`float` (abstracted by `parse`); `none` models the exception when the
file does not exist. -/
def importResults (parse : List Char → ℚ) (fs : TextFS) (runtime : String) :
    Option (List (List ℚ)) :=
  (fs (resultsPath runtime)).map fun lines =>
    lines.map fun line =>
      (pySplitCS (line.filter (fun c => c ≠ '\n'))).map parse

/-- Models the triple-nested loop of the grid branch of
`HyperparamSearch.__init__`: `for i in range(len(tg['learning_rate']))`,
`for j in range(len(tg['no_hidden_layers']))`,
`for k in range(len(tg['layer_density']))`, producing in loop order the
parameter triple each iteration passes to `TrainANN`. -/
def gridCombos (lr nh ld : List ℚ) : List (ℚ × ℚ × ℚ) :=
  (List.range lr.length).flatMap fun i =>
    (List.range nh.length).flatMap fun j =>
      (List.range ld.length).map fun k =>
        (lr.getD i 0, nh.getD j 0, ld.getD k 0)

/-- Attribute state of a `HyperparamSearch` object after `__init__`. -/
structure HyperState where
  solution_matrix : List (List ℚ)
  trained : List (ℚ × ℚ × ℚ)
  params : Option (List ℕ)
  runtime : Option ℤ
deriving DecidableEq

/-- Models `HyperparamSearch.__init__`: `solution_matrix` starts as the
empty list; when both profiles are non-None and `search_type` is
`'grid'` it appends the header of grid sizes, runs the triple-nested
loop constructing one `TrainANN` per `(i, j, k)` (abstracted by the
`train` oracle) and appending one result row, records the runtime
(`elapsed` abstracts `int(end - start)`) and exports the results file.
`trained` logs every `TrainANN` construction in loop order. -/
def init (load_profile voltage_profile : Option (List (List ℚ)))
    (search_type : String) (train : ℚ → ℚ → ℚ → TrainANN) (elapsed : ℤ)
    (render : ℚ → List Char) (fs : TextFS) : HyperState × TextFS :=
  match load_profile, voltage_profile with
  | some _, some _ =>
    if search_type = "grid" then
      let lr := tg_learning_rate
      let nh := tg_no_hidden_layers
      let ld := tg_layer_density
      let params := [lr.length, nh.length, ld.length]
      let combos := gridCombos lr nh ld
      let sm :=
        (params.map fun n => (n : ℚ))
          :: combos.map fun c =>
            [c.1, c.2.1, c.2.2, (train c.1 c.2.1 c.2.2).eval0,
              (train c.1 c.2.1 c.2.2).eval1]
      (⟨sm, combos, some params, some elapsed⟩,
        exportResults render sm elapsed fs)
    else (⟨[], [], none, none⟩, fs)
  | _, _ => (⟨[], [], none, none⟩, fs)

end HyperparamSearch

/-- Modelled from the spec: the calls the timing script
`annnohousestiming.py` makes per problem size — `generateJson`,
the `PowerFlowSim` constructor, `nrPfSim`, and inside `train` the
`TrainANN` constructor, `buildModel`, `trainModel`, `evaluateModel`
and `predictWithModel`, none of which are defined under `src/`. They
are abstract timed operations tagged with the problem size. -/
inductive TimingOp where
  | generateJson (no_houses : ℕ) : TimingOp
  | pfsInit (no_houses : ℕ) : TimingOp
  | nrPfSim (no_houses : ℕ) : TimingOp
  | trainANNInit (no_houses : ℕ) : TimingOp
  | buildModel (no_houses : ℕ) : TimingOp
  | trainModel (no_houses : ℕ) : TimingOp
  | evaluateModel (no_houses : ℕ) : TimingOp
  | predictWithModel (no_houses : ℕ) : TimingOp
deriving DecidableEq

/-- Models `np.arange(start, stop, step)` on integers (the timing
script uses `np.arange(10, 250, 10)`). -/
def arangeNat (start stop step : ℕ) : List ℕ :=
  (List.range ((stop - start + step - 1) / step)).map fun k => start + k * step

namespace annnohousestiming

/-- Models the `train` function of `annnohousestiming.py` under an
abstract duration model: `time.time()` reads a clock that each external
call advances by its duration `dur`. Between `before` and `after` the
function constructs the `TrainANN` and calls `buildModel`,
`trainModel`, `evaluateModel` and `predictWithModel`. Returns the clock
after the call and `after - before`. -/
def train (dur : TimingOp → ℚ) (no_houses : ℕ) (clock : ℚ) : ℚ × ℚ :=
  let before := clock
  let c1 := before + dur (TimingOp.trainANNInit no_houses)
  let c2 := c1 + dur (TimingOp.buildModel no_houses)
  let c3 := c2 + dur (TimingOp.trainModel no_houses)
  let c4 := c3 + dur (TimingOp.evaluateModel no_houses)
  let c5 := c4 + dur (TimingOp.predictWithModel no_houses)
  (c5, c5 - before)

/-- Models one pass of the module-level sweep loop for each size in the
given list: append the size to `data[0]`, run `generateJson`, the
`PowerFlowSim` constructor and `nrPfSim`, then the timed `train` call,
and append the measured time to `data[1]`. Returns
`(data[0], data[1], trace of operations)`. -/
def sweepAux (dur : TimingOp → ℚ) : List ℕ → ℚ → List ℕ × List ℚ × List TimingOp
  | [], _ => ([], [], [])
  | n :: rest, clock =>
    let c1 := clock + dur (TimingOp.generateJson n) + dur (TimingOp.pfsInit n)
      + dur (TimingOp.nrPfSim n)
    let r := train dur n c1
    let s := sweepAux dur rest r.1
    (n :: s.1, r.2 :: s.2.1,
      [TimingOp.generateJson n, TimingOp.pfsInit n, TimingOp.nrPfSim n,
          TimingOp.trainANNInit n, TimingOp.buildModel n, TimingOp.trainModel n,
          TimingOp.evaluateModel n, TimingOp.predictWithModel n]
        ++ s.2.2)

/-- Models the module-level sweep of `annnohousestiming.py`:
`for no_houses in np.arange(10, 250, 10)` starting from an arbitrary
initial clock value. -/
def sweep (dur : TimingOp → ℚ) (clock0 : ℚ) : List ℕ × List ℚ × List TimingOp :=
  sweepAux dur (arangeNat 10 250 10) clock0

end annnohousestiming

/-! ## Helper lemmas -/

theorem list_split_decomp {α : Type u} (l : List α) (d : α) (n : ℕ)
    (h : n < l.length) : l = l.take n ++ l.getD n d :: l.drop (n + 1) := by
  rw [List.getD_eq_getElem l d h, ← List.drop_eq_getElem_cons h,
    List.take_append_drop]

theorem matInv_eq_inv {n : ℕ} (A : Matrix (Fin n) (Fin n) ℚ) : matInv A = A⁻¹ := by
  rw [Matrix.inv_def, matInv, Ring.inverse_eq_inv']

/-! ## Claims -/

/-- C1, counterexample: with `load_profile = [0, ..., 9]` and
`train_percentage = 1/2` the split index is `5`; element `5` of the
input array belongs to neither the train part nor the test part of
either constructor (the test slice starts at `_split_index + 1`), so
the test part is not the remaining elements `[5, ..., 9]` and the two
parts do not cover the input. -/
theorem c1_split_counterexample :
    (5 : ℕ) ∈ [0, 1, 2, 3, 4, 5, 6, 7, 8, 9]
      ∧ 5 ∉ ANNRegression.train_data (1/2) [0, 1, 2, 3, 4, 5, 6, 7, 8, 9]
      ∧ 5 ∉ ANNRegression.test_data (1/2) [0, 1, 2, 3, 4, 5, 6, 7, 8, 9]
      ∧ 5 ∉ ParametricRegression.train_data (1/2) [0, 1, 2, 3, 4, 5, 6, 7, 8, 9]
      ∧ 5 ∉ ParametricRegression.test_data (1/2) [0, 1, 2, 3, 4, 5, 6, 7, 8, 9]
      ∧ ANNRegression.test_data (1/2) [0, 1, 2, 3, 4, 5, 6, 7, 8, 9] = [6, 7, 8, 9] := by
  have h : pySplitIndex (1/2) 10 = 5 := by
    rw [pySplitIndex]
    norm_num
    rfl
  refine ⟨by decide, ?_, ?_, ?_, ?_, ?_⟩
  · show (5 : ℕ) ∉ List.take (pySplitIndex (1/2) 10) [0, 1, 2, 3, 4, 5, 6, 7, 8, 9]
    rw [h]; decide
  · show (5 : ℕ) ∉ List.drop (pySplitIndex (1/2) 10 + 1) [0, 1, 2, 3, 4, 5, 6, 7, 8, 9]
    rw [h]; decide
  · show (5 : ℕ) ∉ List.take (pySplitIndex (1/2) 10) [0, 1, 2, 3, 4, 5, 6, 7, 8, 9]
    rw [h]; decide
  · show (5 : ℕ) ∉ List.drop (pySplitIndex (1/2) 10 + 1) [0, 1, 2, 3, 4, 5, 6, 7, 8, 9]
    rw [h]; decide
  · show List.drop (pySplitIndex (1/2) 10 + 1) [0, 1, 2, 3, 4, 5, 6, 7, 8, 9] = [6, 7, 8, 9]
    rw [h]; decide

/-- C1, amended: for nonnegative `train_percentage`, with
`s = int(train_percentage * len(load_profile))`, both constructors take
the train part as elements `[0, s)` and the test part as elements
`[s+1, len)`; when `s < len` the element at index `s` belongs to
neither partition and every other element belongs to exactly one (the
array decomposes as train ++ [element s] ++ test), and when `len ≤ s`
the train part is the whole array and the test part is empty. -/
theorem c1_split_amended (p : ℚ) (load voltage : List ℚ) (hp : 0 ≤ p) :
    (ANNRegression.train_data p load = ParametricRegression.train_data p load
        ∧ ANNRegression.test_data p load = ParametricRegression.test_data p load)
      ∧ (pySplitIndex p load.length < load.length →
          load = ANNRegression.train_data p load
            ++ load.getD (pySplitIndex p load.length) 0
              :: ANNRegression.test_data p load)
      ∧ (pySplitIndex p load.length < voltage.length →
          voltage = ANNRegression.train_labels p load voltage
            ++ voltage.getD (pySplitIndex p load.length) 0
              :: ANNRegression.test_labels p load voltage)
      ∧ (load.length ≤ pySplitIndex p load.length →
          ANNRegression.train_data p load = load
            ∧ ANNRegression.test_data p load = []) := by
  refine ⟨⟨rfl, rfl⟩, ?_, ?_, ?_⟩
  · intro h
    exact list_split_decomp load 0 _ h
  · intro h
    exact list_split_decomp voltage 0 _ h
  · intro h
    exact ⟨List.take_of_length_le h,
      List.drop_eq_nil_of_le (Nat.le_succ_of_le h)⟩

/-- Witness for `c1_split_amended` at `train_percentage = 1/2` and
`load_profile = [0, ..., 9]` (the split index is `5`). -/
theorem c1_split_amended_witness :
    0 ≤ (1/2 : ℚ)
      ∧ ([0, 1, 2, 3, 4, 5, 6, 7, 8, 9] : List ℚ)
          = ANNRegression.train_data (1/2) [0, 1, 2, 3, 4, 5, 6, 7, 8, 9]
            ++ ([0, 1, 2, 3, 4, 5, 6, 7, 8, 9] : List ℚ).getD (pySplitIndex (1/2) 10) 0
              :: ANNRegression.test_data (1/2) [0, 1, 2, 3, 4, 5, 6, 7, 8, 9] :=
  ⟨by norm_num,
    (c1_split_amended (1/2) [0, 1, 2, 3, 4, 5, 6, 7, 8, 9]
        [0, 1, 2, 3, 4, 5, 6, 7, 8, 9] (by norm_num)).2.1
      (by
        show pySplitIndex (1/2) 10 < 10
        have h : pySplitIndex (1/2) 10 = 5 := by
          rw [pySplitIndex]
          norm_num
          rfl
        rw [h]
        norm_num)⟩

/-- C2: `calculateTheta` computes the normal-equation solution: with
`X` the training data augmented with a leading all-ones bias column
(`data_pb`) and `y` the training targets, the computed theta equals
`(X^T X)⁻¹ (X^T y)` (matrix inversion of `X^T X` applied to `X^T y`). -/
theorem c2_calculateTheta_normal_equation {m d t : ℕ}
    (data : Matrix (Fin m) (Fin d) ℚ) (target : Matrix (Fin m) (Fin t) ℚ) :
    ParametricRegression.calculateTheta (ParametricRegression.data_pb data) target
      = ((ParametricRegression.data_pb data)ᵀ * ParametricRegression.data_pb data)⁻¹
        * ((ParametricRegression.data_pb data)ᵀ * target) := by
  rw [ParametricRegression.calculateTheta, matInv_eq_inv, Matrix.mul_assoc]

/-- C4: for every non-None pair of profiles, `ANNRegression.__init__`
performs its stages in order — data splitting, `buildModel`,
`trainModel`, `evaluateModel`, `predictWithModel` (with plotting inside
it iff `plot_results`) — and the persistence stage (`saveModel` and its
two file writes) runs if and only if `save_model` is true. -/
theorem c4_ann_init_stage_order (load voltage : List (List ℚ)) (p lr : ℚ)
    (nh ld : ℕ) (dropout : Bool) (ne : ℕ) (es save plot : Bool) (now : String) :
    (ANNRegression.init (some load) (some voltage) p lr nh ld dropout ne es save
          plot now).2
        = [Event.splitData, Event.buildModel, Event.trainModel, Event.evaluateModel,
            Event.predictWithModel]
          ++ (if plot then [Event.plotResults] else [])
          ++ (if save then
                [Event.saveModel ("ann_model_" ++ now),
                  Event.writeFile ("./data/lookup_tables/" ++ ("ann_model_" ++ now) ++ ".json"),
                  Event.writeFile ("./data/lookup_tables/" ++ ("ann_model_" ++ now) ++ ".h5")]
              else [])
      ∧ (Event.saveModel ("ann_model_" ++ now)
            ∈ (ANNRegression.init (some load) (some voltage) p lr nh ld dropout ne es
                save plot now).2
          ↔ save = true) := by
  constructor
  · rfl
  · cases save <;> cases plot <;> simp [ANNRegression.init]

/-- C8: constructing `ANNRegression` or `ParametricRegression` with
`load_profile` or `voltage_profile` equal to `None` skips the whole
constructor body: the event trace is empty (no training, no file I/O)
and every attribute of the new object is still unset. -/
theorem c8_none_profiles_no_effects
    (load_profile voltage_profile : Option (List (List ℚ))) (p lr : ℚ)
    (nh ld : ℕ) (dropout : Bool) (ne : ℕ) (es save plot : Bool)
    (now : String) (p2 : ℚ) (save2 : Bool) (now2 : String) :
    ANNRegression.init none voltage_profile p lr nh ld dropout ne es save plot now
        = (ANNObj.empty, [])
      ∧ ANNRegression.init load_profile none p lr nh ld dropout ne es save plot now
        = (ANNObj.empty, [])
      ∧ ParametricRegression.init none voltage_profile p2 save2 now2
        = (ParamObj.empty, [])
      ∧ ParametricRegression.init load_profile none p2 save2 now2
        = (ParamObj.empty, []) := by
  refine ⟨?_, ?_, ?_, ?_⟩
  · cases voltage_profile <;> rfl
  · cases load_profile <;> rfl
  · cases voltage_profile <;> rfl
  · cases load_profile <;> rfl

/-- C5: `loadModel` of `ANNRegression` and of `ParametricRegression`
never propagates an exception: whatever the external reads do, the call
returns normally (`Except.ok`), with the loaded model (respectively the
loaded theta dataset) when the `try` body succeeds and `False` when any
step of it raises (the bare catch-all branch). -/
theorem c5_loadModel_catch_all {μ : Type}
    (readFile : String → Except String (List Char))
    (model_from_json : List Char → Except String μ)
    (load_weights : μ → String → Except String Unit) (model_name : String)
    (fs : H5FS) :
    (∃ r, ANNRegression.loadModel readFile model_from_json load_weights model_name
        = Except.ok r)
      ∧ ((∃ m, ANNRegression.loadJson readFile model_from_json load_weights model_name
              = Except.ok m
            ∧ ANNRegression.loadModel readFile model_from_json load_weights model_name
              = Except.ok (Sum.inl m))
          ∨ ((∃ e, ANNRegression.loadJson readFile model_from_json load_weights
                model_name = Except.error e)
            ∧ ANNRegression.loadModel readFile model_from_json load_weights model_name
              = Except.ok (Sum.inr false)))
      ∧ (∃ r, ParametricRegression.loadModel fs model_name = Except.ok r)
      ∧ ((∃ d, fs (ParametricRegression.h5Path model_name) = Except.ok d
            ∧ ParametricRegression.loadModel fs model_name = Except.ok (Sum.inl d))
          ∨ ((∃ e, fs (ParametricRegression.h5Path model_name) = Except.error e)
            ∧ ParametricRegression.loadModel fs model_name
              = Except.ok (Sum.inr false))) := by
  rcases hb : ANNRegression.loadJson readFile model_from_json load_weights model_name
    with e | m <;>
    rcases hf : fs (ParametricRegression.h5Path model_name) with e2 | d <;>
    refine ⟨?_, ?_, ?_, ?_⟩ <;>
    simp [ANNRegression.loadModel, ParametricRegression.loadModel, hb, hf]

/-- C6: serialization round-trips: after
`ParametricRegression.saveModel` writes theta to the `.h5` lookup
table, `loadModel` on the unchanged file system returns a dataset whose
values equal the saved theta. -/
theorem c6_param_save_load_roundtrip (fs : H5FS) (model_name : String)
    (theta : List (List ℚ)) :
    ParametricRegression.loadModel
        (ParametricRegression.saveModel fs model_name theta) model_name
      = Except.ok (Sum.inl theta) := by
  simp [ParametricRegression.loadModel, ParametricRegression.saveModel]

theorem gridCombos_inner (a b : ℚ) (ld : List ℚ) :
    ((List.range ld.length).map fun k => (a, b, ld.getD k 0))
      = ld.map fun c => (a, b, c) := by
  induction ld with
  | nil => rfl
  | cons x xs ih =>
    rw [List.length_cons, List.range_succ_eq_map, List.map_cons, List.map_map]
    simp only [List.getD_cons_zero, Function.comp_def, List.getD_cons_succ,
      List.map_cons]
    rw [ih]

theorem gridCombos_mid (a : ℚ) (nh ld : List ℚ) :
    ((List.range nh.length).flatMap fun j =>
        (List.range ld.length).map fun k => (a, nh.getD j 0, ld.getD k 0))
      = nh.flatMap fun b => ld.map fun c => (a, b, c) := by
  induction nh with
  | nil => rfl
  | cons y ys ih =>
    rw [List.length_cons, List.range_succ_eq_map, List.flatMap_cons,
      List.flatMap_map]
    simp only [List.getD_cons_zero, Function.comp_def, List.getD_cons_succ,
      List.flatMap_cons]
    rw [ih, gridCombos_inner]

theorem gridCombos_flatMap (lr nh ld : List ℚ) :
    HyperparamSearch.gridCombos lr nh ld
      = lr.flatMap fun a => nh.flatMap fun b => ld.map fun c => (a, b, c) := by
  rw [HyperparamSearch.gridCombos]
  induction lr with
  | nil => rfl
  | cons x xs ih =>
    rw [List.length_cons, List.range_succ_eq_map, List.flatMap_cons,
      List.flatMap_map]
    simp only [List.getD_cons_zero, Function.comp_def, List.getD_cons_succ,
      List.flatMap_cons]
    rw [ih, gridCombos_mid]

theorem gridCombos_eq_product (lr nh ld : List ℚ) :
    HyperparamSearch.gridCombos lr nh ld
      = List.product lr (List.product nh ld) := by
  rw [gridCombos_flatMap]
  simp [List.product, List.map_flatMap, List.map_map, Function.comp_def]

theorem tg_learning_rate_eval :
    HyperparamSearch.tg_learning_rate
      = [1/1000, 21/1000, 41/1000, 61/1000, 81/1000] := by
  have h1 : ((0.1 : ℚ) - 0.001) / 0.02 = 99/20 := by norm_num
  have h2 : ⌈(99/20 : ℚ)⌉ = 5 := by
    rw [Int.ceil_eq_iff]
    norm_num
  rw [HyperparamSearch.tg_learning_rate, arange, h1, h2]
  show List.map _ [0, 1, 2, 3, 4] = _
  simp [List.map_cons]
  norm_num

theorem tg_no_hidden_layers_eval : HyperparamSearch.tg_no_hidden_layers = [1] := by
  have h1 : ((2 : ℚ) - 1) / 1 = 1 := by norm_num
  have h2 : ⌈(1 : ℚ)⌉ = 1 := by norm_num
  rw [HyperparamSearch.tg_no_hidden_layers, arange, h1, h2]
  show List.map _ [0] = _
  norm_num

theorem tg_layer_density_eval : HyperparamSearch.tg_layer_density = [50] := by
  have h1 : ((60 : ℚ) - 50) / 10 = 1 := by norm_num
  have h2 : ⌈(1 : ℚ)⌉ = 1 := by norm_num
  rw [HyperparamSearch.tg_layer_density, arange, h1, h2]
  show List.map _ [0] = _
  norm_num

theorem tg_product_nodup :
    (List.product HyperparamSearch.tg_learning_rate
      (List.product HyperparamSearch.tg_no_hidden_layers
        HyperparamSearch.tg_layer_density)).Nodup := by
  apply List.Nodup.product
  · rw [tg_learning_rate_eval]
    norm_num [List.nodup_cons, List.mem_cons]
  · apply List.Nodup.product
    · rw [tg_no_hidden_layers_eval]
      exact List.nodup_singleton _
    · rw [tg_layer_density_eval]
      exact List.nodup_singleton _

/-- C3: for every non-None pair of profiles and `search_type = 'grid'`,
`HyperparamSearch` trains exactly one ANN for every combination in the
Cartesian product of the three parameter ranges (the trained list is
the product list, which has no duplicates), and `solution_matrix` is a
leading header row holding the three grid sizes followed by one row per
combination containing the three parameter values and that model's two
evaluation results. -/
theorem c3_grid_search (load voltage : List (List ℚ))
    (train : ℚ → ℚ → ℚ → TrainANN) (elapsed : ℤ) (render : ℚ → List Char)
    (fs : TextFS) :
    (HyperparamSearch.init (some load) (some voltage) "grid" train elapsed render
            fs).1.trained
        = List.product HyperparamSearch.tg_learning_rate
            (List.product HyperparamSearch.tg_no_hidden_layers
              HyperparamSearch.tg_layer_density)
      ∧ (List.product HyperparamSearch.tg_learning_rate
          (List.product HyperparamSearch.tg_no_hidden_layers
            HyperparamSearch.tg_layer_density)).Nodup
      ∧ (HyperparamSearch.init (some load) (some voltage) "grid" train elapsed
              render fs).1.solution_matrix
        = [(HyperparamSearch.tg_learning_rate.length : ℚ),
              (HyperparamSearch.tg_no_hidden_layers.length : ℚ),
              (HyperparamSearch.tg_layer_density.length : ℚ)]
            :: (List.product HyperparamSearch.tg_learning_rate
                (List.product HyperparamSearch.tg_no_hidden_layers
                  HyperparamSearch.tg_layer_density)).map fun c =>
                [c.1, c.2.1, c.2.2, (train c.1 c.2.1 c.2.2).eval0,
                  (train c.1 c.2.1 c.2.2).eval1] := by
  refine ⟨?_, tg_product_nodup, ?_⟩
  · show HyperparamSearch.gridCombos HyperparamSearch.tg_learning_rate
        HyperparamSearch.tg_no_hidden_layers HyperparamSearch.tg_layer_density = _
    exact gridCombos_eq_product _ _ _
  · show ([HyperparamSearch.tg_learning_rate.length,
          HyperparamSearch.tg_no_hidden_layers.length,
          HyperparamSearch.tg_layer_density.length].map fun n => (n : ℚ))
        :: (HyperparamSearch.gridCombos HyperparamSearch.tg_learning_rate
            HyperparamSearch.tg_no_hidden_layers
            HyperparamSearch.tg_layer_density).map (fun c =>
          [c.1, c.2.1, c.2.2, (train c.1 c.2.1 c.2.2).eval0,
            (train c.1 c.2.1 c.2.2).eval1]) = _
    rw [gridCombos_eq_product]
    rfl

/-- C9: for every non-None pair of profiles, constructing
`HyperparamSearch` with any `search_type` other than `'grid'` does
nothing beyond initialization: no model is trained, no results file is
written (the file system is returned unchanged), no runtime or params
are recorded, and `solution_matrix` remains the empty list. -/
theorem c9_non_grid_search_noop (load voltage : List (List ℚ))
    (search_type : String) (train : ℚ → ℚ → ℚ → TrainANN) (elapsed : ℤ)
    (render : ℚ → List Char) (fs : TextFS) (h : search_type ≠ "grid") :
    HyperparamSearch.init (some load) (some voltage) search_type train elapsed
        render fs
      = (⟨[], [], none, none⟩, fs) := by
  simp [HyperparamSearch.init, h]

/-- Witness for `c9_non_grid_search_noop` at `search_type = 'random'`,
the other value the class documentation offers. -/
theorem c9_non_grid_search_noop_witness :
    HyperparamSearch.init (some []) (some []) "random" (fun _ _ _ => ⟨0, 0⟩) 0
        (fun _ => []) (fun _ => none)
      = (⟨[], [], none, none⟩, fun _ => none) :=
  c9_non_grid_search_noop [] [] "random" (fun _ _ _ => ⟨0, 0⟩) 0 (fun _ => [])
    (fun _ => none) (by decide)

theorem sweepAux_spec (dur : TimingOp → ℚ) (l : List ℕ) :
    ∀ clock : ℚ, annnohousestiming.sweepAux dur l clock
      = (l,
        l.map fun n =>
          dur (TimingOp.trainANNInit n) + dur (TimingOp.buildModel n)
            + dur (TimingOp.trainModel n) + dur (TimingOp.evaluateModel n)
            + dur (TimingOp.predictWithModel n),
        l.flatMap fun n =>
          [TimingOp.generateJson n, TimingOp.pfsInit n, TimingOp.nrPfSim n,
            TimingOp.trainANNInit n, TimingOp.buildModel n, TimingOp.trainModel n,
            TimingOp.evaluateModel n, TimingOp.predictWithModel n]) := by
  induction l with
  | nil => intro clock; rfl
  | cons n rest ih =>
    intro clock
    simp only [annnohousestiming.sweepAux, annnohousestiming.train, ih,
      List.map_cons, List.flatMap_cons, Prod.mk.injEq, List.cons.injEq,
      and_true, true_and]
    ring

theorem arangeNat_10_250_10_eval :
    arangeNat 10 250 10
      = [10, 20, 30, 40, 50, 60, 70, 80, 90, 100, 110, 120, 130, 140, 150, 160,
          170, 180, 190, 200, 210, 220, 230, 240] := by
  decide

/-- C7: the timing script sweeps `no_houses` over
`np.arange(10, 250, 10) = [10, 20, ..., 240]` in ascending order; it
records exactly one `(no_houses, training_time)` pair per size (the
sizes list and the times list correspond elementwise); for each size
the trace is one `generateJson`, one `PowerFlowSim` construction, one
power-flow simulation (`nrPfSim`) followed by one timed training run;
and the recorded `training_time` is the clock elapsed across the timed
block, namely the durations of the `TrainANN` construction,
`buildModel`, `trainModel`, `evaluateModel` and `predictWithModel`. -/
theorem c7_timing_sweep (dur : TimingOp → ℚ) (clock0 : ℚ) :
    (annnohousestiming.sweep dur clock0).1
        = [10, 20, 30, 40, 50, 60, 70, 80, 90, 100, 110, 120, 130, 140, 150,
            160, 170, 180, 190, 200, 210, 220, 230, 240]
      ∧ List.Chain' (· < ·) (annnohousestiming.sweep dur clock0).1
      ∧ (annnohousestiming.sweep dur clock0).2.1
        = (annnohousestiming.sweep dur clock0).1.map (fun n =>
            dur (TimingOp.trainANNInit n) + dur (TimingOp.buildModel n)
              + dur (TimingOp.trainModel n) + dur (TimingOp.evaluateModel n)
              + dur (TimingOp.predictWithModel n))
      ∧ (annnohousestiming.sweep dur clock0).2.2
        = (annnohousestiming.sweep dur clock0).1.flatMap (fun n =>
            [TimingOp.generateJson n, TimingOp.pfsInit n, TimingOp.nrPfSim n,
              TimingOp.trainANNInit n, TimingOp.buildModel n,
              TimingOp.trainModel n, TimingOp.evaluateModel n,
              TimingOp.predictWithModel n]) := by
  have h := sweepAux_spec dur (arangeNat 10 250 10) clock0
  refine ⟨?_, ?_, ?_, ?_⟩
  · rw [annnohousestiming.sweep, h, arangeNat_10_250_10_eval]
  · rw [annnohousestiming.sweep, h, arangeNat_10_250_10_eval]
    simp [List.chain'_cons]
  · rw [annnohousestiming.sweep, h]
  · rw [annnohousestiming.sweep, h]

theorem splitAux_append (p : List Char) :
    ∀ (l acc : List Char), ',' ∉ p →
      HyperparamSearch.splitAux (p ++ l) acc
        = HyperparamSearch.splitAux l (p.reverse ++ acc) := by
  induction p with
  | nil => intro l acc _; simp
  | cons c p ih =>
    intro l acc h
    have hc : c ≠ ',' := fun hch => h (hch ▸ List.mem_cons_self c p)
    have hp : ',' ∉ p := fun hm => h (List.mem_cons_of_mem c hm)
    cases hpl : p ++ l with
    | nil =>
      rcases List.append_eq_nil.mp hpl with ⟨hp0, hl0⟩
      subst hp0; subst hl0
      simp [HyperparamSearch.splitAux]
    | cons d rest =>
      show HyperparamSearch.splitAux (c :: (p ++ l)) acc = _
      rw [hpl, HyperparamSearch.splitAux]
      rw [if_neg (fun hand => hc hand.1)]
      rw [← hpl, ih l (c :: acc) hp]
      simp [List.reverse_cons, List.append_assoc]

theorem pySplitCS_joinSep :
    ∀ parts : List (List Char), parts ≠ [] → (∀ p ∈ parts, ',' ∉ p) →
      HyperparamSearch.pySplitCS (HyperparamSearch.joinSep parts) = parts := by
  intro parts
  induction parts with
  | nil => intro h _; exact absurd rfl h
  | cons p parts ih =>
    intro _ hmem
    cases parts with
    | nil =>
      show HyperparamSearch.pySplitCS (HyperparamSearch.joinSep [p]) = [p]
      rw [HyperparamSearch.joinSep, HyperparamSearch.pySplitCS, ← List.append_nil p,
        splitAux_append p [] [] (hmem p (List.mem_cons_self p []))]
      simp [HyperparamSearch.splitAux]
    | cons q ps =>
      show HyperparamSearch.pySplitCS (HyperparamSearch.joinSep (p :: q :: ps))
        = p :: q :: ps
      rw [HyperparamSearch.joinSep, HyperparamSearch.pySplitCS, List.append_assoc,
        splitAux_append p _ [] (hmem p (List.mem_cons_self p _))]
      show HyperparamSearch.splitAux
        (',' :: ' ' :: HyperparamSearch.joinSep (q :: ps)) _ = _
      rw [HyperparamSearch.splitAux, if_pos ⟨rfl, rfl⟩]
      have hqs : HyperparamSearch.splitAux (HyperparamSearch.joinSep (q :: ps)) []
          = q :: ps :=
        ih (by simp) (fun x hx => hmem x (List.mem_cons_of_mem p hx))
      rw [hqs]
      simp

theorem writeRowAux_eq (render : ℚ → List Char) :
    ∀ (xs : List ℚ) (c : ℕ),
      HyperparamSearch.writeRowAux render xs c (c + xs.length)
        = HyperparamSearch.joinSep (xs.map render) := by
  intro xs
  induction xs with
  | nil => intro c; rfl
  | cons x xs ih =>
    intro c
    cases xs with
    | nil =>
      rw [HyperparamSearch.writeRowAux]
      have hnc : ¬ c < c + (List.cons x []).length - 1 := by
        simp
      rw [if_neg hnc]
      simp [HyperparamSearch.writeRowAux, HyperparamSearch.joinSep]
    | cons y ys =>
      rw [HyperparamSearch.writeRowAux]
      have hc : c < c + (x :: y :: ys).length - 1 := by
        simp only [List.length_cons]
        omega
      rw [if_pos hc]
      have ht : c + (x :: y :: ys).length = (c + 1) + (y :: ys).length := by
        simp only [List.length_cons]
        omega
      rw [ht, ih (c + 1)]
      rfl

theorem rowLine_eq_joinSep (render : ℚ → List Char) (row : List ℚ) :
    HyperparamSearch.rowLine render row
      = HyperparamSearch.joinSep (row.map render) := by
  have h := writeRowAux_eq render row 0
  simpa [HyperparamSearch.rowLine] using h

theorem mem_joinSep (ch : Char) :
    ∀ parts : List (List Char), ch ∈ HyperparamSearch.joinSep parts →
      ch = ',' ∨ ch = ' ' ∨ ∃ p ∈ parts, ch ∈ p := by
  intro parts
  induction parts with
  | nil => intro h; simp [HyperparamSearch.joinSep] at h
  | cons p parts ih =>
    intro h
    cases parts with
    | nil =>
      rw [HyperparamSearch.joinSep] at h
      exact Or.inr (Or.inr ⟨p, by simp, h⟩)
    | cons q ps =>
      rw [HyperparamSearch.joinSep] at h
      rcases List.mem_append.mp h with h1 | h2
      · rcases List.mem_append.mp h1 with h3 | h4
        · exact Or.inr (Or.inr ⟨p, by simp, h3⟩)
        · rcases List.mem_cons.mp h4 with h5 | h6
          · exact Or.inl h5
          · exact Or.inr (Or.inl (by simpa using h6))
      · rcases ih h2 with h7 | h7 | ⟨r, hr, hchr⟩
        · exact Or.inl h7
        · exact Or.inr (Or.inl h7)
        · exact Or.inr (Or.inr ⟨r, List.mem_cons_of_mem p hr, hchr⟩)

theorem filter_no_newline (l : List Char) (h : ∀ c ∈ l, c ≠ '\n') :
    l.filter (fun c => c ≠ '\n') = l :=
  List.filter_eq_self.mpr (fun a ha => by simp [h a ha])

/-- C10: the hyperparameter search results round-trip through the
results file: after `exportResults` writes `solution_matrix` (one line
per row, entries separated by `', '`), `importResults(str(self.runtime))`
on the unchanged file system recovers exactly the rows whose entries
are the written values parsed back (the `str`/`float` codec is
abstracted by `render`/`parse`; the hypotheses state that every row is
nonempty and every rendered entry parses back to its value and contains
no comma and no newline, which holds of Python's `str` on numbers). -/
theorem c10_results_roundtrip (render : ℚ → List Char) (parse : List Char → ℚ)
    (sm : List (List ℚ)) (runtime : ℤ) (fs : TextFS)
    (hrows : ∀ row ∈ sm, row ≠ [])
    (hentries : ∀ row ∈ sm, ∀ x ∈ row,
      parse (render x) = x ∧ ',' ∉ render x ∧ '\n' ∉ render x) :
    HyperparamSearch.importResults parse
        (HyperparamSearch.exportResults render sm runtime fs) (toString runtime)
      = some sm := by
  have hline : ∀ row ∈ sm,
      (HyperparamSearch.pySplitCS ((HyperparamSearch.rowLine render row).filter
          (fun c => c ≠ '\n'))).map parse = row := by
    intro row hrow
    rw [rowLine_eq_joinSep render row]
    have hnonl : ∀ ch ∈ HyperparamSearch.joinSep (row.map render), ch ≠ '\n' := by
      intro ch hch
      rcases mem_joinSep ch (row.map render) hch with h1 | h1 | ⟨p, hp, hchp⟩
      · subst h1; decide
      · subst h1; decide
      · rcases List.mem_map.mp hp with ⟨x, hx, rfl⟩
        intro heq
        exact (hentries row hrow x hx).2.2 (heq ▸ hchp)
    rw [filter_no_newline _ hnonl]
    rw [pySplitCS_joinSep (row.map render) (by simpa using hrows row hrow)
      (fun p hp => by
        rcases List.mem_map.mp hp with ⟨x, hx, rfl⟩
        exact (hentries row hrow x hx).2.1)]
    rw [List.map_map]
    refine Eq.trans ?_ (List.map_id row)
    exact List.map_congr_left (fun x hx => (hentries row hrow x hx).1)
  simp only [HyperparamSearch.importResults, HyperparamSearch.exportResults]
  simp only [if_true, Option.map_some', Option.some.injEq, List.map_map]
  refine Eq.trans ?_ (List.map_id sm)
  exact List.map_congr_left (fun row hrow => hline row hrow)

/-- Witness for `c10_results_roundtrip` on the matrix `[[1], [2]]` with
a concrete codec. -/
theorem c10_results_roundtrip_witness :
    HyperparamSearch.importResults
        (fun l => if l = ['1'] then 1 else if l = ['2'] then 2 else 0)
        (HyperparamSearch.exportResults
          (fun q => if q = 1 then ['1'] else if q = 2 then ['2'] else ['?'])
          [[1], [2]] 0 (fun _ => none))
        (toString (0 : ℤ))
      = some [[1], [2]] :=
  c10_results_roundtrip
    (fun q => if q = 1 then ['1'] else if q = 2 then ['2'] else ['?'])
    (fun l => if l = ['1'] then 1 else if l = ['2'] then 2 else 0)
    [[1], [2]] 0 (fun _ => none)
    (by decide) (by decide)
